import Mathlib

/-
  Verification of the TinyG canonical-machine layer (tinyg_331.11).

  The repository ships the interface `canonical_machine.h`: enumerations
  (cmMachineState, cmModalGroup, cmUnitsMode, cmDistanceMode, cmOriginOffset,
  cmDirection, ...), the GCodeModel record, the documented machine-state
  transition table, and the prototypes of the cm_ dispatch functions.  The
  function bodies (canonical_machine.c) are not in the sources, so every
  operation below whose doc comment starts with "Modelled from the spec:" is a
  shallow embedding built from the specification's words; enumerations, modal
  group membership and the transition table are taken from the header itself.

  Machine doubles are modelled as rationals (ℚ); unit conversion and offset
  arithmetic are exact there, so "within floating-point tolerance" becomes
  exact equality.
-/

namespace TinyG

/-- Machine states, from `enum cmMachineState` (canonical_machine.h:156-163). -/
inductive MachineState where
  | reset
  | run
  | stop
  | hold
  | endHold
  | homing
deriving DecidableEq, Repr, Fintype

/-- Events driving the top-level machine state machine: the transitions named
in the header comment (canonical_machine.h:125-139).  cycle_start, program
stop/end, feedhold and abort correspond to `cm_cycle_start`, `cm_program_stop`,
`cm_program_end`, `cm_feedhold`, `cm_abort`. -/
inductive MachineEvent where
  | cycleStart
  | programStop
  | programEnd
  | feedhold
  | abort
deriving DecidableEq, Repr, Fintype

/-- Modelled from the spec: the machine state machine realised by
`cm_cycle_start` / `cm_program_stop` / `cm_program_end` / `cm_feedhold` /
`cm_abort`, whose bodies (canonical_machine.c) are absent from the sources.
The transitions follow the table documented at canonical_machine.h:125-139 and
spec section 4.4: abort forces RESET from every state; pairs the table does not
mention leave the state unchanged. -/
def machineTransition (s : MachineState) (e : MachineEvent) : MachineState :=
  match e, s with
  | .abort, _ => .reset
  | .cycleStart, .reset => .run
  | .cycleStart, .stop => .run
  | .cycleStart, .hold => .endHold
  | .cycleStart, .run => .run
  | .programStop, .run => .stop
  | .programEnd, .run => .reset
  | .feedhold, .run => .hold
  | .feedhold, .hold => .hold
  | _, s => s

/-! ## Modal groups -/

/-- The gcode words that belong to one of the mutually exclusive modal groups
of `enum cmModalGroup` (canonical_machine.h:299-310); membership is taken from
that enum's comments. -/
inductive GCodeWord where
  | g4 | g10 | g28 | g30 | g53 | g92 | g92_1      -- Non-modal (group 0)
  | g0 | g1 | g2 | g3 | g80                        -- Motion (group 1)
  | g17 | g18 | g19                                -- Plane selection (group 2)
  | g90 | g91                                      -- Distance mode (group 3)
  | m0 | m1 | m2 | m30                             -- Stopping (group 4)
  | g93 | g94                                      -- Feed rate mode (group 5)
  | g20 | g21                                      -- Units (group 6)
  | m3 | m4 | m5                                   -- Spindle turning (group 7)
  | g54 | g55 | g56 | g57 | g58 | g59              -- Coordinate system (group 12)
deriving DecidableEq, Repr, Fintype

/-- The modal groups, from `enum cmModalGroup` (canonical_machine.h:299-310). -/
inductive ModalGroup where
  | group0   -- [G4,G10,G28,G30,G53,G92,G92.1] Non-modal
  | group1   -- [G0,G1,G2,G3,G80] Motion
  | group2   -- [G17,G18,G19] Plane selection
  | group3   -- [G90,G91] Distance mode
  | group4   -- [M0,M1,M2,M30] Stopping
  | group5   -- [G93,G94] Feed rate mode
  | group6   -- [G20,G21] Units
  | group7   -- [M3,M4,M5] Spindle turning
  | group12  -- [G54,G55,G56,G57,G58,G59] Coordinate system selection
deriving DecidableEq, Repr, Fintype

/-- Group membership, exactly as listed in the `cmModalGroup` comments
(canonical_machine.h:301-309). -/
def modalGroup : GCodeWord → ModalGroup
  | .g4 | .g10 | .g28 | .g30 | .g53 | .g92 | .g92_1 => .group0
  | .g0 | .g1 | .g2 | .g3 | .g80 => .group1
  | .g17 | .g18 | .g19 => .group2
  | .g90 | .g91 => .group3
  | .m0 | .m1 | .m2 | .m30 => .group4
  | .g93 | .g94 => .group5
  | .g20 | .g21 => .group6
  | .m3 | .m4 | .m5 => .group7
  | .g54 | .g55 | .g56 | .g57 | .g58 | .g59 => .group12

/-- The groups, in the order the validator scans them. -/
def allGroups : List ModalGroup :=
  [.group0, .group1, .group2, .group3, .group4, .group5, .group6, .group7, .group12]

/-- Every grouped gcode word, in the order of the `cmModalGroup` comments. -/
def allWords : List GCodeWord :=
  [.g4, .g10, .g28, .g30, .g53, .g92, .g92_1,
   .g0, .g1, .g2, .g3, .g80,
   .g17, .g18, .g19,
   .g90, .g91,
   .m0, .m1, .m2, .m30,
   .g93, .g94,
   .g20, .g21,
   .m3, .m4, .m5,
   .g54, .g55, .g56, .g57, .g58, .g59]

/-- The words of group `g` flagged as set in the current block. -/
def flaggedCodes (flags : GCodeWord → Bool) (g : ModalGroup) : List GCodeWord :=
  allWords.filter (fun c => modalGroup c == g && flags c)

/-- A block flags a conflict in group `g` when two of its members are set. -/
def hasConflict (flags : GCodeWord → Bool) (g : ModalGroup) : Bool :=
  decide (2 ≤ (flaggedCodes flags g).length)

/-- Modelled from the spec: the modal-group validator ("checking multiple
command violations", canonical_machine.h:291-298; body absent from the
sources).  Returns the first group in which two set flags collide, together
with the colliding codes, or `none` when every group has at most one member
set. -/
def checkModalGroups (flags : GCodeWord → Bool) :
    Option (ModalGroup × List GCodeWord) :=
  (allGroups.find? (hasConflict flags)).map
    (fun g => (g, flaggedCodes flags g))

/-- Status codes returned by dispatch calls (spec section 7). -/
inductive Status where
  | ok
  | modalGroupConflict (g : ModalGroup) (codes : List GCodeWord)
  | machineNotReady
  | arcGeometryError
  | axisRangeError
  | invalidCoordinateSystem
  | invalidToolNumber
deriving DecidableEq, Repr

/-! ## Axis vectors, units and distance modes -/

/-- An `AxisVector`: XYZABC, `double target[AXES]` in the header with AXES = 6.
Axes 0,1,2 are the linear axes X,Y,Z; axes 3,4,5 are the rotary axes A,B,C. -/
abbrev AxisVec := Fin 6 → ℚ

/-- Units mode, from `enum cmUnitsMode` (canonical_machine.h:226-230):
INCHES = G20, MILLIMETERS = G21 (DEGREES applies to the rotary axes). -/
inductive UnitsMode where
  | inches
  | millimeters
deriving DecidableEq, Repr, Fintype

/-- Distance mode, from `enum cmDistanceMode` (canonical_machine.h:248-251). -/
inductive DistanceMode where
  | absoluteMode     -- G90
  | incrementalMode  -- G91
deriving DecidableEq, Repr, Fintype

/-- Millimeters per inch, exact in ℚ. -/
def mmPerInch : ℚ := 254 / 10

/-- Modelled from the spec: unit normalization of one incoming axis word
(applied inside `cm_set_target`, body absent from the sources).  Inch values
on the linear axes X,Y,Z scale by 25.4 to millimeters; rotary-axis values are
always degrees and pass through unscaled. -/
def normalizeAxisInput (u : UnitsMode) (i : Fin 6) (v : ℚ) : ℚ :=
  if u = UnitsMode.inches ∧ i.val < 3 then v * mmPerInch else v

/-- Modelled from the spec: the inverse of `normalizeAxisInput`, the
denormalization direction of the round-trip law of spec section 8. -/
def denormalizeAxisInput (u : UnitsMode) (i : Fin 6) (v : ℚ) : ℚ :=
  if u = UnitsMode.inches ∧ i.val < 3 then v / mmPerInch else v

/-- Modelled from the spec: `cm_set_target` (prototype canonical_machine.h:333,
body absent).  Combines the committed position, the incoming axis words and the
per-axis change flags (`gf.target[]`, canonical_machine.h:54-56) into the raw
target, per axis: an axis whose flag is unset keeps the committed position's
value; a set axis takes the normalized input (absolute mode) or committed
position plus the normalized input delta (incremental mode). -/
def cm_set_target (dist : DistanceMode) (u : UnitsMode) (position : AxisVec)
    (input : AxisVec) (flag : Fin 6 → Bool) : AxisVec :=
  fun i =>
    if flag i then
      match dist with
      | .absoluteMode => normalizeAxisInput u i (input i)
      | .incrementalMode => position i + normalizeAxisInput u i (input i)
    else position i

/-- Modelled from the spec: the inverse of the target-resolution transform on a
set axis (spec section 8's round-trip law). -/
def cm_unset_target (dist : DistanceMode) (u : UnitsMode) (position : AxisVec)
    (resolved : AxisVec) (i : Fin 6) : ℚ :=
  match dist with
  | .absoluteMode => denormalizeAxisInput u i (resolved i)
  | .incrementalMode => denormalizeAxisInput u i (resolved i - position i)

/-! ## Coordinate-system and origin offsets -/

/-- Origin-offset (G92 family) operations, from `enum cmOriginOffset`
(canonical_machine.h:253-258). -/
inductive OriginOp where
  | set      -- G92   - set origin offsets
  | cancel   -- G92.1 - zero out origin offsets
  | suspend  -- G92.2 - do not apply offsets, but preserve the values
  | resume   -- G92.3 - resume application of the suspended offsets
deriving DecidableEq, Repr, Fintype

/-- The offset-relevant slice of the committed model used by target
resolution. -/
structure OffsetState where
  coordOffset : AxisVec        -- offset of the active coordinate system (cfg)
  originOffset : AxisVec       -- gm.origin_offset, the G92 offsets
  originOffsetMode : Bool      -- gm.origin_offset_mode
  originSuspended : Bool       -- G92.2 suspension in effect
deriving DecidableEq

/-- Modelled from the spec: absolute-machine-space resolution of a raw target
(spec section 4.2; the resolver's body is absent from the sources).  The
resolved target is raw target plus the coordinate-system offset plus the
origin offset (the latter only when origin-offset mode is active and not
suspended) — unless `absolute_override` (G53, canonical_machine.h:87) is set
for this block, in which case both offsets are bypassed entirely. -/
def resolveTarget (st : OffsetState) (absoluteOverride : Bool) (raw : AxisVec) :
    AxisVec :=
  fun i =>
    if absoluteOverride then raw i
    else raw i + st.coordOffset i +
      (if st.originOffsetMode = true ∧ st.originSuspended = false
       then st.originOffset i else 0)

/-- The origin-offset slice of the committed gcode model. -/
structure OriginState where
  originOffset : AxisVec
  originOffsetMode : Bool
  originSuspended : Bool
deriving DecidableEq

/-- Modelled from the spec: `cm_set_origin_offsets` (prototype
canonical_machine.h:343, body absent), acting on the origin-offset slice of
the committed model.  `set` stores the given offsets and activates the mode;
`cancel` zeroes them out; `suspend` stops applying the offsets but preserves
the stored values; `resume` reapplies the suspended offsets. -/
def cm_set_origin_offsets (s : OriginState) (op : OriginOp) (offset : AxisVec) :
    OriginState :=
  match op with
  | .set => { originOffset := offset, originOffsetMode := true,
              originSuspended := false }
  | .cancel => { originOffset := fun _ => 0, originOffsetMode := false,
                 originSuspended := false }
  | .suspend => { s with originSuspended := true }
  | .resume => { s with originSuspended := false }

/-! ## Arc geometry (radius mode) -/

/-- Arc direction, from `enum cmDirection` (canonical_machine.h:272-275). -/
inductive ArcDirection where
  | cw   -- G2
  | ccw  -- G3
deriving DecidableEq, Repr, Fintype

/-- Squared chord length between start and end point in the working plane. -/
def chordSq (s e : ℚ × ℚ) : ℚ := (e.1 - s.1) ^ 2 + (e.2 - s.2) ^ 2

/-- Modelled from the spec: the radius-to-center conversion of radius-mode arcs
(`cm_set_arc_radius` / `cm_arc_feed`, prototypes canonical_machine.h:335 and
378-380, bodies absent).  Of the two geometrically possible centers the one
matching the requested rotation direction is chosen; the conversion fails
(`none`, reported as ArcGeometryError) exactly when the radius is smaller than
half the chord length, i.e. when `4·r² < chord²`.  The square root of the
discriminant is taken with `Rat.sqrt`, which is exact whenever the discriminant
is a perfect square — in particular at a semicircle, where it is zero. -/
def arcCenterFromRadius (s e : ℚ × ℚ) (r : ℚ) (dir : ArcDirection) :
    Option (ℚ × ℚ) :=
  let x := e.1 - s.1
  let y := e.2 - s.2
  let d2 := x ^ 2 + y ^ 2
  if 4 * r ^ 2 < d2 then none
  else
    let root := Rat.sqrt ((4 * r ^ 2 - d2) / d2)
    let h := match dir with
      | .cw => -root
      | .ccw => root
    some (s.1 + (x - y * h) / 2, s.2 + (y + x * h) / 2)

/-! ## Blocks, machine and the dispatch pipeline -/

/-- The motion-issuing canonical functions (spec section 4.7):
`cm_straight_traverse`, `cm_straight_feed`, `cm_arc_feed`, `cm_dwell`
(prototypes canonical_machine.h:348, 354, 378, 353). -/
inductive MotionKind where
  | traverse  -- G0
  | feed      -- G1
  | cwArc     -- G2
  | ccwArc    -- G3
  | dwell     -- G4
deriving DecidableEq, Repr, Fintype

/-- One parsed command block: the parser's `gn`/`gf` values relevant to this
layer (spec section 6, "From parser"). -/
structure Block where
  flags : GCodeWord → Bool          -- which grouped gcode words the block set
  axisInput : AxisVec               -- XYZABC axis words, pre-normalized form
  axisFlags : Fin 6 → Bool          -- gf.target[]: axis word present
  motion : Option MotionKind        -- motion this block requests, if any
  arcRadius : Option ℚ              -- R word: radius-mode arc when present
  absOverride : Bool                -- G53, this block only
  setCoordSystem : Option ℕ         -- G54-G59 selection (0-6 valid)
  setTool : Option ℕ                -- T word
  setOriginOp : Option OriginOp     -- G92/G92.1/G92.2/G92.3
  setUnits : Option UnitsMode       -- G20/G21
  setDistance : Option DistanceMode -- G90/G91

/-- The committed gcode model `gm` (canonical_machine.h:65-110), restricted to
the fields this layer's claims exercise. -/
structure GCodeModelState where
  position : AxisVec
  target : AxisVec
  originOffset : AxisVec
  originOffsetMode : Bool
  originSuspended : Bool
  coord_system : ℕ                  -- 0 = ABSOLUTE_COORDS, 1-6 = G54-G59
  units_mode : UnitsMode
  distance_mode : DistanceMode
  tool : ℕ

/-- The machine: committed model, machine state, and the read-only
per-coordinate-system offsets supplied by the configuration store. -/
structure Machine where
  gm : GCodeModelState
  machineState : MachineState
  coordOffsets : ℕ → AxisVec        -- cfg: G54-G59 offsets, never written

/-- A motion request emitted to the external planner (spec section 6). -/
structure MotionRequest where
  kind : MotionKind
  target : AxisVec
deriving DecidableEq

/-- Outcome of dispatching one block. -/
structure BlockResult where
  machine : Machine
  request : Option MotionRequest
  status : Status

/-- Number of coordinate systems: ABSOLUTE_COORDS and G54-G59
(`enum cmCoordSystem`, canonical_machine.h:232-240). -/
def coordSystemCount : ℕ := 7

/-- Modelled from the spec: the highest tool number the dispatcher accepts
(spec section 7 lists InvalidToolNumber for out-of-domain T values; the header
stores tools in a uint8_t). -/
def maxToolNumber : ℕ := 255

/-- Modelled from the spec: symmetric axis travel bound guarding
AxisRangeError (spec section 7 lists it for out-of-domain values; the concrete
limit lives in the configuration store). -/
def maxTravel : ℚ := 1000000

/-- The offset-resolution slice of a machine. -/
def offsetStateOf (m : Machine) : OffsetState :=
  { coordOffset := m.coordOffsets m.gm.coord_system,
    originOffset := m.gm.originOffset,
    originOffsetMode := m.gm.originOffsetMode,
    originSuspended := m.gm.originSuspended }

/-- The origin-offset slice of a machine's committed model. -/
def originStateOf (m : Machine) : OriginState :=
  { originOffset := m.gm.originOffset,
    originOffsetMode := m.gm.originOffsetMode,
    originSuspended := m.gm.originSuspended }

/-- Modelled from the spec: the Machine State gate on motion-issuing dispatch
calls (spec section 4.4: "A motion-issuing dispatch call fails with
MachineNotReady unless machine_state is RUN (or HOMING for homing-internal
moves)"; the cm_ bodies are absent from the sources). -/
def motionStateGate (s : MachineState) (homingInternal : Bool) : Status :=
  if s = MachineState.run ∨ (s = MachineState.homing ∧ homingInternal = true)
  then .ok else .machineNotReady

/-- Modelled from the spec: per-axis raw-target resolution of one block
(spec section 4.2).  A flagged axis resolves through the offset resolver in
absolute mode, or to committed position plus normalized delta in incremental
mode; an unflagged axis keeps the committed position's value. -/
def resolveBlockTarget (m : Machine) (b : Block) (u : UnitsMode)
    (dist : DistanceMode) : AxisVec :=
  fun i =>
    if b.axisFlags i then
      match dist with
      | .incrementalMode =>
          m.gm.position i + normalizeAxisInput u i (b.axisInput i)
      | .absoluteMode =>
          resolveTarget (offsetStateOf m) b.absOverride
            (fun j => normalizeAxisInput u j (b.axisInput j)) i
    else m.gm.position i

/-- Units mode in force for the current block: the incoming value when G20/G21
is flagged, otherwise the committed modal value. -/
def blockUnits (m : Machine) (b : Block) : UnitsMode :=
  b.setUnits.getD m.gm.units_mode

/-- Distance mode in force for the current block. -/
def blockDistance (m : Machine) (b : Block) : DistanceMode :=
  b.setDistance.getD m.gm.distance_mode

/-- The block's resolved absolute target under its in-force units and distance
modes. -/
def blockResolved (m : Machine) (b : Block) : AxisVec :=
  resolveBlockTarget m b (blockUnits m b) (blockDistance m b)

/-- The origin-offset slice the block commits: changed by a G92-family word,
otherwise carried over. -/
def blockOrigin (m : Machine) (b : Block) : OriginState :=
  match b.setOriginOp with
  | some op =>
      cm_set_origin_offsets (originStateOf m) op
        (fun i => if b.axisFlags i
          then normalizeAxisInput (blockUnits m b) i (b.axisInput i)
          else m.gm.originOffset i)
  | none => originStateOf m

/-- The successful tail of the dispatch pipeline: commit the validated incoming
fields to the committed model and emit at most one motion request. -/
def commitBlock (m : Machine) (b : Block) : BlockResult :=
  let resolved := blockResolved m b
  let origin1 := blockOrigin m b
  let moved := match b.motion with
    | some .dwell => false
    | some _ => true
    | none => false
  let gm' : GCodeModelState :=
    { position := if moved then resolved else m.gm.position,
      target := resolved,
      originOffset := origin1.originOffset,
      originOffsetMode := origin1.originOffsetMode,
      originSuspended := origin1.originSuspended,
      coord_system := b.setCoordSystem.getD m.gm.coord_system,
      units_mode := blockUnits m b,
      distance_mode := blockDistance m b,
      tool := b.setTool.getD m.gm.tool }
  ⟨{ m with gm := gm' },
   b.motion.map (fun k => { kind := k, target := resolved }),
   .ok⟩

/-- Modelled from the spec: the Command Dispatcher pipeline for one block
(spec sections 2 and 4.7; canonical_machine.c is absent from the sources).
Order of evaluation: the Modal Group Validator runs before any dispatch
function; then the Machine State gate for motion-issuing blocks; then the
domain validations (coordinate system, tool, axis range, arc geometry); only
when every check passes are the resolved fields committed to the model and at
most one motion request emitted.  Every error path returns the machine
unchanged with no request. -/
def processBlock (m : Machine) (b : Block) : BlockResult :=
  match checkModalGroups b.flags with
  | some (g, cs) => ⟨m, none, .modalGroupConflict g cs⟩
  | none =>
    if b.motion.isSome && decide (motionStateGate m.machineState false ≠ .ok)
    then ⟨m, none, .machineNotReady⟩
    else if decide (∃ c, b.setCoordSystem = some c ∧ coordSystemCount ≤ c)
    then ⟨m, none, .invalidCoordinateSystem⟩
    else if decide (∃ t, b.setTool = some t ∧ maxToolNumber < t)
    then ⟨m, none, .invalidToolNumber⟩
    else if decide (∃ i : Fin 6, maxTravel < |blockResolved m b i|)
    then ⟨m, none, .axisRangeError⟩
    else if decide ((b.motion = some .cwArc ∨ b.motion = some .ccwArc) ∧
        ∃ r, b.arcRadius = some r ∧
          4 * r ^ 2 < chordSq (m.gm.position 0, m.gm.position 1)
                              (blockResolved m b 0, blockResolved m b 1))
    then ⟨m, none, .arcGeometryError⟩
    else commitBlock m b

/-- Modelled from the spec: `cm_abort` (prototype canonical_machine.h:374,
body absent).  Unconditional and immediate: forces Machine State to RESET
regardless of the current state; it returns void, so it always succeeds. -/
def cm_abort (m : Machine) : Machine :=
  { m with machineState := machineTransition m.machineState .abort }

/-! ## Helper lemmas -/

lemma allWords_nodup : allWords.Nodup := by decide

lemma mem_allWords (c : GCodeWord) : c ∈ allWords := by cases c <;> decide

lemma mem_allGroups (g : ModalGroup) : g ∈ allGroups := by cases g <;> decide

lemma exists_pair_of_nodup_two_le {α : Type} {l : List α} (hn : l.Nodup)
    (h : 2 ≤ l.length) : ∃ a b, a ≠ b ∧ a ∈ l ∧ b ∈ l := by
  match l, hn, h with
  | a :: b :: t, hn, _ =>
    refine ⟨a, b, ?_, by simp, by simp⟩
    intro hab
    subst hab
    simp at hn

lemma two_le_length_of_mem_ne {α : Type} [DecidableEq α] {l : List α}
    {a b : α} (hab : a ≠ b) (ha : a ∈ l) (hb : b ∈ l) : 2 ≤ l.length :=
  le_trans (Finset.one_lt_card.mpr
    ⟨a, List.mem_toFinset.mpr ha, b, List.mem_toFinset.mpr hb, hab⟩)
    l.toFinset_card_le

lemma hasConflict_iff (flags : GCodeWord → Bool) (g : ModalGroup) :
    hasConflict flags g = true ↔
      ∃ c1 c2, c1 ≠ c2 ∧ modalGroup c1 = g ∧ modalGroup c2 = g ∧
        flags c1 = true ∧ flags c2 = true := by
  unfold hasConflict flaggedCodes
  simp only [decide_eq_true_eq]
  constructor
  · intro h
    obtain ⟨a, b, hab, ha, hb⟩ :=
      exists_pair_of_nodup_two_le (allWords_nodup.filter _) h
    simp only [List.mem_filter, Bool.and_eq_true, beq_iff_eq] at ha hb
    exact ⟨a, b, hab, ha.2.1, hb.2.1, ha.2.2, hb.2.2⟩
  · rintro ⟨c1, c2, hne, h1, h2, f1, f2⟩
    exact two_le_length_of_mem_ne hne
      (List.mem_filter.mpr ⟨mem_allWords c1, by simp [h1, f1]⟩)
      (List.mem_filter.mpr ⟨mem_allWords c2, by simp [h2, f2]⟩)

/-! ## Concrete fixtures used by the witnesses -/

/-- The zero axis vector. -/
def zeroVec : AxisVec := fun _ => 0

/-- A committed model in a plain state: mm, absolute, G54, at the origin. -/
def sampleGM : GCodeModelState :=
  { position := zeroVec, target := zeroVec, originOffset := zeroVec,
    originOffsetMode := false, originSuspended := false, coord_system := 1,
    units_mode := .millimeters, distance_mode := .absoluteMode, tool := 1 }

/-- A running machine whose G54 offset is 2 mm on every axis. -/
def sampleMachine : Machine :=
  { gm := sampleGM, machineState := .run,
    coordOffsets := fun n => if n = 1 then (fun _ => 2) else zeroVec }

/-- A block that sets nothing. -/
def emptyBlock : Block :=
  { flags := fun _ => false, axisInput := zeroVec, axisFlags := fun _ => false,
    motion := none, arcRadius := none, absOverride := false,
    setCoordSystem := none, setTool := none, setOriginOp := none,
    setUnits := none, setDistance := none }

/-- A block flagging both G0 and G1: a Motion-group conflict. -/
def conflictBlock : Block :=
  { emptyBlock with flags := fun c => c == .g0 || c == .g1 }

/-- A straight-feed block moving X to 1. -/
def motionBlock : Block :=
  { emptyBlock with
    motion := some .feed
    axisInput := fun _ => 1
    axisFlags := fun i => i.val == 0 }

/-- The sample machine stopped. -/
def stoppedMachine : Machine := { sampleMachine with machineState := .stop }

/-- The sample machine inside a homing cycle. -/
def homingMachine : Machine := { sampleMachine with machineState := .homing }

/-- A G53 block: straight feed with absolute override. -/
def overrideBlock : Block := { motionBlock with absOverride := true }

/-- A committed position of 10 on every axis. -/
def posW : AxisVec := fun _ => 10

/-- An input of 5 on every axis. -/
def inputW : AxisVec := fun _ => 5

/-- Axis flags setting only X. -/
def flagW : Fin 6 → Bool := fun i => i.val == 0

/-- Resolution of a raw target under a coordinate offset and an origin-offset
slice (no absolute override). -/
def originResolve (co : AxisVec) (s : OriginState) (raw : AxisVec) : AxisVec :=
  resolveTarget ⟨co, s.originOffset, s.originOffsetMode, s.originSuspended⟩
    false raw

end TinyG

/-- C1: the machine state machine matches the section 4.4 transition table on
every listed (state, event) pair, including the two no-op cases, and abort
yields RESET from every state. -/
theorem C1_machine_state_table :
    TinyG.machineTransition .reset .cycleStart = .run ∧
    TinyG.machineTransition .run .programStop = .stop ∧
    TinyG.machineTransition .run .programEnd = .reset ∧
    TinyG.machineTransition .run .feedhold = .hold ∧
    TinyG.machineTransition .stop .cycleStart = .run ∧
    TinyG.machineTransition .hold .cycleStart = .endHold ∧
    TinyG.machineTransition .run .cycleStart = .run ∧
    TinyG.machineTransition .hold .feedhold = .hold ∧
    ∀ s : TinyG.MachineState, TinyG.machineTransition s .abort = .reset := by
  refine ⟨rfl, rfl, rfl, rfl, rfl, rfl, rfl, rfl, ?_⟩
  intro s
  cases s <;> rfl

/-- C2: the Modal Group Validator flags a conflict exactly when two distinct
words of the same mutually-exclusive modal group are both set in the block's
incoming flags; the reported payload names the conflicting group and its set
codes; and a conflicting block is rejected before any dispatch function
executes — the machine is returned unchanged and no motion request is
emitted, whatever else the block contains. -/
theorem C2_modal_group_validator :
    (∀ flags : TinyG.GCodeWord → Bool,
      (TinyG.checkModalGroups flags).isSome = true ↔
        ∃ c1 c2, c1 ≠ c2 ∧ TinyG.modalGroup c1 = TinyG.modalGroup c2 ∧
          flags c1 = true ∧ flags c2 = true) ∧
    (∀ (flags : TinyG.GCodeWord → Bool) (g : TinyG.ModalGroup)
       (cs : List TinyG.GCodeWord),
      TinyG.checkModalGroups flags = some (g, cs) →
        2 ≤ cs.length ∧ ∀ c ∈ cs, TinyG.modalGroup c = g ∧ flags c = true) ∧
    (∀ (m : TinyG.Machine) (b : TinyG.Block) (g : TinyG.ModalGroup)
       (cs : List TinyG.GCodeWord),
      TinyG.checkModalGroups b.flags = some (g, cs) →
        TinyG.processBlock m b = ⟨m, none, .modalGroupConflict g cs⟩) := by
  refine ⟨?_, ?_, ?_⟩
  · intro flags
    unfold TinyG.checkModalGroups
    rw [Option.isSome_map', List.find?_isSome]
    constructor
    · rintro ⟨g, _, hg⟩
      obtain ⟨c1, c2, hne, h1, h2, f1, f2⟩ :=
        (TinyG.hasConflict_iff flags g).mp hg
      exact ⟨c1, c2, hne, h1.trans h2.symm, f1, f2⟩
    · rintro ⟨c1, c2, hne, hg, f1, f2⟩
      exact ⟨TinyG.modalGroup c1, TinyG.mem_allGroups _,
        (TinyG.hasConflict_iff flags _).mpr
          ⟨c1, c2, hne, rfl, hg.symm, f1, f2⟩⟩
  · intro flags g cs h
    unfold TinyG.checkModalGroups at h
    rw [Option.map_eq_some'] at h
    obtain ⟨g', hfind, heq⟩ := h
    simp only [Prod.mk.injEq] at heq
    obtain ⟨rfl, rfl⟩ := heq
    have hc := List.find?_some hfind
    unfold TinyG.hasConflict at hc
    refine ⟨of_decide_eq_true hc, ?_⟩
    intro c hmem
    unfold TinyG.flaggedCodes at hmem
    rw [List.mem_filter] at hmem
    have := hmem.2
    simp only [Bool.and_eq_true, beq_iff_eq] at this
    exact this
  · intro m b g cs h
    unfold TinyG.processBlock
    rw [h]

/-- Witness for C2: a block flagging G0 and G1 together is rejected with a
Motion-group conflict, the machine unchanged and no request emitted. -/
theorem C2_modal_group_validator_witness :
    TinyG.processBlock TinyG.sampleMachine TinyG.conflictBlock =
      ⟨TinyG.sampleMachine, none, .modalGroupConflict .group1 [.g0, .g1]⟩ :=
  C2_modal_group_validator.2.2 TinyG.sampleMachine TinyG.conflictBlock
    .group1 [.g0, .g1] (by decide)

/-- C10: the Non-modal group's members are exactly G4, G10, G28, G30, G53,
G92 and G92.1 (canonical_machine.h:301), so the validator rejects a block
combining G53 with G28, or G92 with G10, with a conflict in that group. -/
theorem C10_nonmodal_membership :
    (∀ c : TinyG.GCodeWord, TinyG.modalGroup c = .group0 ↔
      c ∈ [TinyG.GCodeWord.g4, .g10, .g28, .g30, .g53, .g92, .g92_1]) ∧
    TinyG.checkModalGroups (fun c => c == .g53 || c == .g28) =
      some (.group0, [.g28, .g53]) ∧
    TinyG.checkModalGroups (fun c => c == .g92 || c == .g10) =
      some (.group0, [.g10, .g92]) :=
  ⟨by decide, by decide, by decide⟩

/-- C3: dispatch errors are atomic — whenever a block is rejected for any
reason, the machine (committed model, machine state and configuration) is
returned unchanged and no motion request is emitted; `cm_abort` is the only
state change available on the error path and it always succeeds, forcing
RESET while leaving the committed model intact. -/
theorem C3_error_atomicity :
    (∀ (m : TinyG.Machine) (b : TinyG.Block),
      (TinyG.processBlock m b).status ≠ .ok →
        (TinyG.processBlock m b).machine = m ∧
        (TinyG.processBlock m b).request = none) ∧
    (∀ m : TinyG.Machine,
      (TinyG.cm_abort m).machineState = .reset ∧
      (TinyG.cm_abort m).gm = m.gm) := by
  constructor
  · intro m b
    unfold TinyG.processBlock
    cases hc : TinyG.checkModalGroups b.flags with
    | some p =>
      obtain ⟨g, cs⟩ := p
      exact fun _ => ⟨rfl, rfl⟩
    | none =>
      repeat' split
      all_goals intro h
      all_goals first
        | exact ⟨rfl, rfl⟩
        | exact absurd rfl h
  · intro m
    exact ⟨rfl, rfl⟩

/-- Witness for C3: the concrete rejected block (motion while stopped) leaves
the machine unchanged and emits no request. -/
theorem C3_error_atomicity_witness :
    (TinyG.processBlock TinyG.stoppedMachine TinyG.motionBlock).machine =
      TinyG.stoppedMachine ∧
    (TinyG.processBlock TinyG.stoppedMachine TinyG.motionBlock).request =
      none :=
  C3_error_atomicity.1 TinyG.stoppedMachine TinyG.motionBlock (by decide)

/-- C4: incremental-mode target resolution is per axis — an axis whose flag is
unset resolves to the committed position for that axis (never zero), and a
flagged axis resolves to committed position plus the normalized input delta,
so one block may mix set and carried-forward axes. -/
theorem C4_incremental_per_axis :
    ∀ (u : TinyG.UnitsMode) (position input : TinyG.AxisVec)
      (flag : Fin 6 → Bool) (i : Fin 6),
      (flag i = false →
        TinyG.cm_set_target .incrementalMode u position input flag i =
          position i) ∧
      (flag i = true →
        TinyG.cm_set_target .incrementalMode u position input flag i =
          position i + TinyG.normalizeAxisInput u i (input i)) := by
  intro u position input flag i
  constructor <;> intro h <;> simp [TinyG.cm_set_target, h]

/-- Witness for C4: with the flag set only on X, the X axis resolves to
position plus delta and the Y axis carries the committed position forward. -/
theorem C4_incremental_per_axis_witness :
    TinyG.cm_set_target .incrementalMode .millimeters TinyG.posW TinyG.inputW
      TinyG.flagW 1 = TinyG.posW 1 ∧
    TinyG.cm_set_target .incrementalMode .millimeters TinyG.posW TinyG.inputW
      TinyG.flagW 0 =
      TinyG.posW 0 + TinyG.normalizeAxisInput .millimeters 0 (TinyG.inputW 0) :=
  ⟨(C4_incremental_per_axis .millimeters TinyG.posW TinyG.inputW
      TinyG.flagW 1).1 (by decide),
   (C4_incremental_per_axis .millimeters TinyG.posW TinyG.inputW
      TinyG.flagW 0).2 (by decide)⟩

/-- C5: a motion-issuing block is rejected with MachineNotReady, with no state
committed, whenever machine_state is not RUN — in particular while STOP or
HOMING; the Machine State gate admits external moves only in RUN and
homing-internal moves additionally in HOMING. -/
theorem C5_motion_requires_run :
    (∀ (m : TinyG.Machine) (b : TinyG.Block),
      TinyG.checkModalGroups b.flags = none →
      b.motion.isSome = true →
      m.machineState ≠ .run →
        TinyG.processBlock m b = ⟨m, none, .machineNotReady⟩) ∧
    (∀ s : TinyG.MachineState,
      TinyG.motionStateGate s false = .ok ↔ s = .run) ∧
    (∀ s : TinyG.MachineState,
      TinyG.motionStateGate s true = .ok ↔ (s = .run ∨ s = .homing)) := by
  refine ⟨?_, ?_, ?_⟩
  · intro m b hchk hmot hrun
    unfold TinyG.processBlock
    rw [hchk]
    have hgate : TinyG.motionStateGate m.machineState false =
        .machineNotReady := by
      simp [TinyG.motionStateGate, hrun]
    simp [hmot, hgate]
  · intro s
    cases s <;> simp [TinyG.motionStateGate]
  · intro s
    cases s <;> simp [TinyG.motionStateGate]

/-- Witness for C5: the same straight-feed block is rejected both while
stopped and while homing. -/
theorem C5_motion_requires_run_witness :
    TinyG.processBlock TinyG.stoppedMachine TinyG.motionBlock =
      ⟨TinyG.stoppedMachine, none, .machineNotReady⟩ ∧
    TinyG.processBlock TinyG.homingMachine TinyG.motionBlock =
      ⟨TinyG.homingMachine, none, .machineNotReady⟩ :=
  ⟨C5_motion_requires_run.1 TinyG.stoppedMachine TinyG.motionBlock
      (by decide) rfl (by decide),
   C5_motion_requires_run.1 TinyG.homingMachine TinyG.motionBlock
      (by decide) rfl (by decide)⟩

/-- C6: target resolution adds the coordinate-system offset and, when
origin-offset mode is active and not suspended, the origin offset, to the raw
target; when absolute_override is set both offsets are bypassed entirely; and
the bypass is per block — a block carrying the override commits no change to
the offset state, so the following block's resolution reinstates the offsets
unchanged. -/
theorem C6_absolute_override :
    (∀ (st : TinyG.OffsetState) (raw : TinyG.AxisVec) (i : Fin 6),
      TinyG.resolveTarget st true raw i = raw i) ∧
    (∀ (st : TinyG.OffsetState) (raw : TinyG.AxisVec) (i : Fin 6),
      st.originOffsetMode = true → st.originSuspended = false →
      TinyG.resolveTarget st false raw i =
        raw i + st.coordOffset i + st.originOffset i) ∧
    (∀ (st : TinyG.OffsetState) (raw : TinyG.AxisVec) (i : Fin 6),
      st.originOffsetMode = false ∨ st.originSuspended = true →
      TinyG.resolveTarget st false raw i = raw i + st.coordOffset i) ∧
    (∀ (m : TinyG.Machine) (b : TinyG.Block),
      b.absOverride = true → b.setCoordSystem = none → b.setOriginOp = none →
      (TinyG.processBlock m b).status = .ok →
      TinyG.offsetStateOf (TinyG.processBlock m b).machine =
          TinyG.offsetStateOf m ∧
      ∀ raw, TinyG.resolveTarget
            (TinyG.offsetStateOf (TinyG.processBlock m b).machine) false raw =
          TinyG.resolveTarget (TinyG.offsetStateOf m) false raw) := by
  refine ⟨?_, ?_, ?_, ?_⟩
  · intro st raw i
    simp [TinyG.resolveTarget]
  · intro st raw i h1 h2
    simp [TinyG.resolveTarget, h1, h2]
  · intro st raw i h
    rcases h with h | h <;> simp [TinyG.resolveTarget, h]
  · intro m b hov hcoord hop hok
    have key : TinyG.offsetStateOf (TinyG.processBlock m b).machine =
        TinyG.offsetStateOf m := by
      unfold TinyG.processBlock
      cases hc : TinyG.checkModalGroups b.flags with
      | some p => obtain ⟨g, cs⟩ := p; rfl
      | none =>
        repeat' split
        any_goals rfl
        simp [TinyG.commitBlock, TinyG.offsetStateOf, TinyG.blockOrigin, hop,
          TinyG.originStateOf, hcoord]
    exact ⟨key, fun raw => by rw [key]⟩

/-- Witness for C6: the override bypasses the sample machine's offsets for the
G53 block, while processing that block leaves the offset state intact. -/
theorem C6_absolute_override_witness :
    TinyG.resolveTarget (TinyG.offsetStateOf TinyG.sampleMachine) true
      TinyG.posW 0 = TinyG.posW 0 ∧
    TinyG.resolveTarget ⟨TinyG.posW, TinyG.inputW, true, false⟩ false
      TinyG.zeroVec 0 = TinyG.zeroVec 0 + TinyG.posW 0 + TinyG.inputW 0 ∧
    TinyG.resolveTarget ⟨TinyG.posW, TinyG.inputW, false, false⟩ false
      TinyG.zeroVec 0 = TinyG.zeroVec 0 + TinyG.posW 0 ∧
    TinyG.offsetStateOf
        (TinyG.processBlock TinyG.sampleMachine TinyG.overrideBlock).machine =
      TinyG.offsetStateOf TinyG.sampleMachine :=
  ⟨C6_absolute_override.1 (TinyG.offsetStateOf TinyG.sampleMachine)
      TinyG.posW 0,
   C6_absolute_override.2.1 ⟨TinyG.posW, TinyG.inputW, true, false⟩
      TinyG.zeroVec 0 rfl rfl,
   C6_absolute_override.2.2.1 ⟨TinyG.posW, TinyG.inputW, false, false⟩
      TinyG.zeroVec 0 (Or.inl rfl),
   (C6_absolute_override.2.2.2 TinyG.sampleMachine TinyG.overrideBlock
      rfl rfl rfl (by decide)).1⟩

/-- C7: the radius-to-center conversion fails exactly when the radius is
smaller than half the chord (4·r² < chord²); the clockwise and
counterclockwise selections are the two mirror-image centers, symmetric about
the chord midpoint; and on the concrete 10-unit chord, radius 5 clockwise
resolves to center (5,0), radius 5.0001 succeeds, and radius 4.9 fails. -/
theorem C7_arc_radius_center :
    (∀ (s e : ℚ × ℚ) (r : ℚ) (dir : TinyG.ArcDirection),
      TinyG.arcCenterFromRadius s e r dir = none ↔
        4 * r ^ 2 < TinyG.chordSq s e) ∧
    (∀ (s e : ℚ × ℚ) (r : ℚ) (c1 c2 : ℚ × ℚ),
      TinyG.arcCenterFromRadius s e r .cw = some c1 →
      TinyG.arcCenterFromRadius s e r .ccw = some c2 →
      c1.1 + c2.1 = s.1 + e.1 ∧ c1.2 + c2.2 = s.2 + e.2) ∧
    TinyG.arcCenterFromRadius (0, 0) (10, 0) 5 .cw = some (5, 0) ∧
    (TinyG.arcCenterFromRadius (0, 0) (10, 0) (50001 / 10000) .cw).isSome =
      true ∧
    TinyG.arcCenterFromRadius (0, 0) (10, 0) (49 / 10) .cw = none := by
  refine ⟨?_, ?_,
    by simp only [TinyG.arcCenterFromRadius]; norm_num,
    by simp only [TinyG.arcCenterFromRadius]; norm_num [Option.isSome],
    by simp only [TinyG.arcCenterFromRadius]; norm_num⟩
  · intro s e r dir
    simp only [TinyG.arcCenterFromRadius, TinyG.chordSq]
    split <;> simp_all
  · intro s e r c1 c2 h1 h2
    simp only [TinyG.arcCenterFromRadius] at h1 h2
    by_cases hcond : 4 * r ^ 2 < (e.1 - s.1) ^ 2 + (e.2 - s.2) ^ 2
    · rw [if_pos hcond] at h1
      exact absurd h1 (by simp)
    · rw [if_neg hcond] at h1 h2
      simp only [Option.some.injEq] at h1 h2
      subst h1
      subst h2
      constructor <;> simp <;> ring

/-- Witness for C7: at the semicircular chord both direction choices coincide
at the midpoint, and their sum equals start plus end. -/
theorem C7_arc_radius_center_witness :
    (5 : ℚ) + 5 = 0 + 10 ∧ (0 : ℚ) + 0 = 0 + 0 :=
  C7_arc_radius_center.2.1 (0, 0) (10, 0) 5 (5, 0) (5, 0)
    (by simp only [TinyG.arcCenterFromRadius]; norm_num)
    (by simp only [TinyG.arcCenterFromRadius]; norm_num)

/-- C8: resolving a target and then the inverse transform recovers the
original input exactly, for every axis and every combination of units and
distance modes; inch inputs on the linear axes scale by exactly 25.4 and
rotary-axis values pass through unscaled. -/
theorem C8_roundtrip :
    (∀ (dist : TinyG.DistanceMode) (u : TinyG.UnitsMode)
       (position input : TinyG.AxisVec) (flag : Fin 6 → Bool) (i : Fin 6),
      flag i = true →
        TinyG.cm_unset_target dist u position
          (TinyG.cm_set_target dist u position input flag) i = input i) ∧
    (∀ (i : Fin 6) (v : ℚ), i.val < 3 →
      TinyG.normalizeAxisInput .inches i v = v * TinyG.mmPerInch) ∧
    (∀ (u : TinyG.UnitsMode) (i : Fin 6) (v : ℚ), 3 ≤ i.val →
      TinyG.normalizeAxisInput u i v = v) := by
  refine ⟨?_, ?_, ?_⟩
  · intro dist u position input flag i hf
    have hm : TinyG.mmPerInch ≠ 0 := by norm_num [TinyG.mmPerInch]
    have key : ∀ w, TinyG.denormalizeAxisInput u i
        (TinyG.normalizeAxisInput u i w) = w := by
      intro w
      unfold TinyG.normalizeAxisInput TinyG.denormalizeAxisInput
      split
      next => exact mul_div_cancel_right₀ _ hm
      next => rfl
    cases dist <;>
      simp [TinyG.cm_set_target, TinyG.cm_unset_target, hf,
        add_sub_cancel_left, key]
  · intro i v h
    simp [TinyG.normalizeAxisInput, h]
  · intro u i v h
    have h3 : ¬ i.val < 3 := by omega
    simp [TinyG.normalizeAxisInput, h3]

/-- Witness for C8: the round trip at inch units, incremental mode, on the X
axis; the exact 25.4 scaling on X; the pass-through on the rotary B axis. -/
theorem C8_roundtrip_witness :
    TinyG.cm_unset_target .incrementalMode .inches TinyG.posW
      (TinyG.cm_set_target .incrementalMode .inches TinyG.posW TinyG.inputW
        TinyG.flagW) 0 = TinyG.inputW 0 ∧
    TinyG.normalizeAxisInput .inches 0 3 = 3 * TinyG.mmPerInch ∧
    TinyG.normalizeAxisInput .inches 4 3 = 3 :=
  ⟨C8_roundtrip.1 .incrementalMode .inches TinyG.posW TinyG.inputW
      TinyG.flagW 0 (by decide),
   C8_roundtrip.2.1 0 3 (by decide),
   C8_roundtrip.2.2 .inches 4 3 (by decide)⟩

/-- C9: origin-offset suspend and resume round-trip — after setting an offset
and suspending it, the stored vector is unchanged while resolution excludes
the offset; resuming reincludes exactly the original offset, and the resumed
resolution is identical to the resolution before the suspension. -/
theorem C9_origin_suspend_resume :
    ∀ (s0 : TinyG.OriginState) (offset co raw : TinyG.AxisVec),
      (TinyG.cm_set_origin_offsets
        (TinyG.cm_set_origin_offsets s0 .set offset) .suspend
        offset).originOffset = offset ∧
      (∀ i, TinyG.originResolve co
        (TinyG.cm_set_origin_offsets
          (TinyG.cm_set_origin_offsets s0 .set offset) .suspend offset)
        raw i = raw i + co i) ∧
      (∀ i, TinyG.originResolve co
        (TinyG.cm_set_origin_offsets
          (TinyG.cm_set_origin_offsets
            (TinyG.cm_set_origin_offsets s0 .set offset) .suspend offset)
          .resume offset)
        raw i = raw i + co i + offset i) ∧
      TinyG.originResolve co
        (TinyG.cm_set_origin_offsets
          (TinyG.cm_set_origin_offsets
            (TinyG.cm_set_origin_offsets s0 .set offset) .suspend offset)
          .resume offset) raw =
      TinyG.originResolve co (TinyG.cm_set_origin_offsets s0 .set offset)
        raw := by
  intro s0 offset co raw
  refine ⟨rfl, ?_, ?_, rfl⟩
  · intro i
    simp [TinyG.originResolve, TinyG.resolveTarget,
      TinyG.cm_set_origin_offsets]
  · intro i
    simp [TinyG.originResolve, TinyG.resolveTarget,
      TinyG.cm_set_origin_offsets]
